import Mathlib

/-!
Shallow embedding of the device-lifecycle controller (src/src/device.py)
and the fake hardware test doubles (src/tests/test_device.py).

Python exceptions are modelled by an explicit error type `Err`; a raising
call returns `Except.error`.  Mutation of the hardware object is modelled
by threading an explicit hardware state `σ`: every hardware operation
returns its `Except` outcome together with the successor state, so a call
that raises can still have mutated the hardware (as in Python).  The
controller itself is a record of its two mutable fields (`ready`,
`device_type`); each method returns the outcome, the successor controller
and the successor hardware state.  `time.sleep` and logging have no
observable effect and are omitted; the `timeout` parameter of
`boot_device` therefore does not appear.
-/

/-- Python exception kinds raised in device.py and the fakes. -/
inductive Err where
  | deviceNotReady (msg : String)
  | deviceTimeout (msg : String)
  | typeError (msg : String)
  | indexError
  | hwError (msg : String)
  deriving DecidableEq

deriving instance DecidableEq for Except

/-- Python substring containment on lists of characters
(`needle in hay` for strings). -/
def listIn (needle : List Char) : List Char → Bool
  | [] => needle.isEmpty
  | c :: cs => needle.isPrefixOf (c :: cs) || listIn needle cs

/-- Python `needle in hay` for strings: substring containment. -/
def strIn (needle hay : String) : Bool :=
  listIn needle.data hay.data

/-- Python `str.split(sep)` for a one-character separator, on character
lists: split at every occurrence of `sep`, keeping empty fields. -/
def splitOnChar (sep : Char) : List Char → List (List Char)
  | [] => [[]]
  | c :: cs =>
      if c = sep then [] :: splitOnChar sep cs
      else
        match splitOnChar sep cs with
        | [] => [[c]]
        | w :: ws => (c :: w) :: ws

/-- Python `s.split(sep)` for a one-character separator. -/
def pySplit (s : String) (sep : Char) : List String :=
  (splitOnChar sep s.data).map (fun l => ⟨l⟩)

/-- The abstract hardware interface: `power_on`, `power_off`, `status`,
`send`, each threading the hardware state `σ` and possibly raising, plus
the class name of the concrete hardware (Python
`hardware_interface.__class__.__name__`). -/
structure Hardware (σ : Type) where
  power_on : σ → Except Err Unit × σ
  power_off : σ → Except Err Unit × σ
  status : σ → Except Err String × σ
  send : String → σ → Except Err String × σ
  class_name : String

/-- The mutable fields of `DeviceController`. -/
structure DeviceController where
  ready : Bool
  device_type : String
  deriving DecidableEq

/-- `DeviceController.__init__`: `ready = False`, `device_type` is the
class name of the hardware. -/
def mkController {σ : Type} (hw : Hardware σ) : DeviceController :=
  { ready := false, device_type := hw.class_name }

/-- The inner polling loop of `boot_device`: call `hw.status()` up to `k`
times, returning `true` as soon as one call returns "READY"; a raising
`status` call aborts the loop with the error. -/
def pollLoop {σ : Type} (hw : Hardware σ) : Nat → σ → Except Err Bool × σ
  | 0, s => (.ok false, s)
  | k + 1, s =>
      match hw.status s with
      | (.error e, s') => (.error e, s')
      | (.ok st, s') =>
          if st = "READY" then (.ok true, s') else pollLoop hw k s'

/-- The outer retry loop of `boot_device`: each attempt calls
`hw.power_on()` and then polls the status up to 10 times; any error raised
by `power_on` or `status` is caught and the next attempt starts (the
attempt is consumed). Returns whether some poll observed "READY". -/
def bootLoop {σ : Type} (hw : Hardware σ) : Nat → σ → Bool × σ
  | 0, s => (false, s)
  | n + 1, s =>
      match hw.power_on s with
      | (.error _, s') => bootLoop hw n s'
      | (.ok _, s') =>
          match pollLoop hw 10 s' with
          | (.ok true, s'') => (true, s'')
          | (.ok false, s'') => bootLoop hw n s''
          | (.error _, s'') => bootLoop hw n s''

/-- `DeviceController.boot_device`: on a successful attempt set
`ready = true` and return; if all `retries` attempts exhaust, raise
`DeviceTimeoutError`. -/
def boot_device {σ : Type} (hw : Hardware σ) (c : DeviceController)
    (retries : Nat) (s : σ) : Except Err Unit × DeviceController × σ :=
  match bootLoop hw retries s with
  | (true, s') => (.ok (), { c with ready := true }, s')
  | (false, s') =>
      (.error (.deviceTimeout "Device failed to boot within the specified timeout."),
        c, s')

/-- `DeviceController.send_command`: raise `DeviceNotReadyError` when not
ready, otherwise forward the command verbatim to `hw.send` and return its
outcome unchanged. -/
def send_command {σ : Type} (hw : Hardware σ) (c : DeviceController)
    (command : String) (s : σ) : Except Err String × DeviceController × σ :=
  if c.ready = false then (.error (.deviceNotReady "Device is not ready."), c, s)
  else ((hw.send command s).1, c, (hw.send command s).2)

/-- `DeviceController.check_motion`: type check, readiness check, then
send "GET_MOTION" and compare the response with "MOTION:YES". -/
def check_motion {σ : Type} (hw : Hardware σ) (c : DeviceController)
    (s : σ) : Except Err Bool × DeviceController × σ :=
  if strIn "Motion" c.device_type = false then
    (.error (.typeError "This device does not support motion detection"), c, s)
  else if c.ready = false then
    (.error (.deviceNotReady "Device is not ready."), c, s)
  else
    match hw.send "GET_MOTION" s with
    | (.error e, s') => (.error e, c, s')
    | (.ok response, s') => (.ok (response == "MOTION:YES"), c, s')

/-- `DeviceController.check_contact`: type check, readiness check, then
send "GET_CONTACT" and return `response.split(":")[1]`; an out-of-bounds
index raises (Python IndexError). -/
def check_contact {σ : Type} (hw : Hardware σ) (c : DeviceController)
    (s : σ) : Except Err String × DeviceController × σ :=
  if strIn "Contact" c.device_type = false then
    (.error (.typeError "This device does not support contact sensing"), c, s)
  else if c.ready = false then
    (.error (.deviceNotReady "Device is not ready."), c, s)
  else
    match hw.send "GET_CONTACT" s with
    | (.error e, s') => (.error e, c, s')
    | (.ok response, s') =>
        match (pySplit response ':')[1]? with
        | some v => (.ok v, c, s')
        | none => (.error .indexError, c, s')

/-- `DeviceController.shutdown`: call `hw.power_off()` and then set
`ready = false`; when `power_off` raises, the assignment is never reached
and the error propagates. -/
def shutdown {σ : Type} (hw : Hardware σ) (c : DeviceController)
    (s : σ) : Except Err Unit × DeviceController × σ :=
  match hw.power_off s with
  | (.error e, s') => (.error e, c, s')
  | (.ok _, s') => (.ok (), { c with ready := false }, s')

/-- The mutable fields of the `FakeMotionSensor` test double. -/
structure FakeSensorState where
  power : Bool
  ready_counter : Nat
  ready_after : Nat
  commands : List String
  motion_detected : Bool
  deriving DecidableEq

/-- `FakeMotionSensor.__init__(ready_after)`. -/
def FakeSensorState.init (ready_after : Nat) : FakeSensorState :=
  { power := false, ready_counter := 0, ready_after := ready_after,
    commands := [], motion_detected := false }

/-- The `FakeMotionSensor` test double: `power_on` increments the ready
counter, `status` is "READY" once the counter exceeds `ready_after`, and
`send` raises unless powered and past `ready_after`, records the command,
and answers "GET_MOTION" from the motion flag. -/
def FakeMotionSensor : Hardware FakeSensorState where
  power_on s := (.ok (), { s with power := true, ready_counter := s.ready_counter + 1 })
  power_off s := (.ok (), { s with power := false })
  status s :=
    (.ok (if s.ready_after < s.ready_counter then "READY" else "BOOTING"), s)
  send cmd s :=
    if s.power = false then (.error (.deviceNotReady "Device is not powered on"), s)
    else if s.ready_counter ≤ s.ready_after then
      (.error (.deviceTimeout "Device is not ready"), s)
    else
      let s' := { s with commands := s.commands ++ [cmd] }
      if cmd == "GET_MOTION" then
        (.ok (if s.motion_detected then "MOTION:YES" else "MOTION:NO"), s')
      else (.ok ("ACK:" ++ cmd), s')
  class_name := "FakeMotionSensor"

/-- The mutable fields of the `FakeContactSensor` test double. -/
structure FakeContactState where
  power : Bool
  ready_counter : Nat
  ready_after : Nat
  commands : List String
  contact_state : String
  deriving DecidableEq

/-- `FakeContactSensor.__init__(ready_after)`: default contact state is
"CLOSED". -/
def FakeContactState.init (ready_after : Nat) : FakeContactState :=
  { power := false, ready_counter := 0, ready_after := ready_after,
    commands := [], contact_state := "CLOSED" }

/-- The `FakeContactSensor` test double: like the motion fake, but `send`
answers "GET_CONTACT" with "CONTACT:" followed by the stored state. -/
def FakeContactSensor : Hardware FakeContactState where
  power_on s := (.ok (), { s with power := true, ready_counter := s.ready_counter + 1 })
  power_off s := (.ok (), { s with power := false })
  status s :=
    (.ok (if s.ready_after < s.ready_counter then "READY" else "BOOTING"), s)
  send cmd s :=
    if s.power = false then (.error (.deviceNotReady "Device is not powered on"), s)
    else if s.ready_counter ≤ s.ready_after then
      (.error (.deviceTimeout "Device is not ready"), s)
    else
      let s' := { s with commands := s.commands ++ [cmd] }
      if cmd == "GET_CONTACT" then
        (.ok ("CONTACT:" ++ s.contact_state), s')
      else (.ok ("ACK:" ++ cmd), s')
  class_name := "FakeContactSensor"

/-- A hardware whose `power_off` raises: exercises the error path of
`shutdown`.  The interface allows this (`power_off` is a plain method any
concrete hardware may override with raising behaviour). -/
def failPowerOffHw : Hardware Unit where
  power_on s := (.ok (), s)
  power_off s := (.error (.hwError "power off failed"), s)
  status s := (.ok "READY", s)
  send _ s := (.ok "ACK", s)
  class_name := "FlakyContactSensor"

/-- A contact-capable hardware whose "GET_CONTACT" response carries a
second colon-separated field: "CONTACT:OPEN:LATCHED". -/
def latchedContactHw : Hardware Unit where
  power_on s := (.ok (), s)
  power_off s := (.ok (), s)
  status s := (.ok "READY", s)
  send _ s := (.ok "CONTACT:OPEN:LATCHED", s)
  class_name := "LatchedContactSensor"

/-- A contact-capable hardware whose "GET_CONTACT" response contains no
colon at all: "OPEN". -/
def bareOpenHw : Hardware Unit where
  power_on s := (.ok (), s)
  power_off s := (.ok (), s)
  status s := (.ok "READY", s)
  send _ s := (.ok "OPEN", s)
  class_name := "BareContactSensor"

/-- A hardware whose `power_on` always raises. -/
def badPowerHw : Hardware Unit where
  power_on s := (.error (.hwError "no power"), s)
  power_off s := (.ok (), s)
  status s := (.ok "READY", s)
  send _ s := (.ok "ACK", s)
  class_name := "BadPowerSensor"

/-- A hardware whose `power_on` succeeds but whose `status` always
raises. -/
def badStatusHw : Hardware Unit where
  power_on s := (.ok (), s)
  power_off s := (.ok (), s)
  status s := (.error (.hwError "status failure"), s)
  send _ s := (.ok "ACK", s)
  class_name := "BadStatusSensor"

theorem fake_power_on (s : FakeSensorState) :
    FakeMotionSensor.power_on s
      = (.ok (), { s with power := true, ready_counter := s.ready_counter + 1 }) := rfl

theorem fake_status_booting (s : FakeSensorState)
    (h : s.ready_counter ≤ s.ready_after) :
    FakeMotionSensor.status s = (.ok "BOOTING", s) := by
  simp only [FakeMotionSensor]
  rw [if_neg (by omega)]

theorem fake_status_ready (s : FakeSensorState)
    (h : s.ready_after < s.ready_counter) :
    FakeMotionSensor.status s = (.ok "READY", s) := by
  simp only [FakeMotionSensor]
  rw [if_pos h]

theorem pollLoop_fake_booting (k : Nat) (s : FakeSensorState)
    (h : s.ready_counter ≤ s.ready_after) :
    pollLoop FakeMotionSensor k s = (.ok false, s) := by
  induction k with
  | zero => rfl
  | succ k ih =>
      simp only [pollLoop, fake_status_booting s h]
      rw [if_neg (by decide : ¬ ("BOOTING" : String) = "READY")]
      exact ih

theorem pollLoop_fake_ready (k : Nat) (hk : 0 < k) (s : FakeSensorState)
    (h : s.ready_after < s.ready_counter) :
    pollLoop FakeMotionSensor k s = (.ok true, s) := by
  cases k with
  | zero => omega
  | succ k =>
      simp [pollLoop, fake_status_ready s h]

theorem bootLoop_fake_fail (n : Nat) : ∀ s : FakeSensorState,
    s.ready_counter + n ≤ s.ready_after →
    (bootLoop FakeMotionSensor n s).1 = false := by
  induction n with
  | zero => intro s h; rfl
  | succ n ih =>
      intro s h
      obtain ⟨p, rc, ra, cm, md⟩ := s
      simp only at h
      simp only [bootLoop, fake_power_on]
      rw [pollLoop_fake_booting 10 _ (show rc + 1 ≤ ra by omega)]
      exact ih _ (show rc + 1 + n ≤ ra by omega)

theorem bootLoop_fake_success : ∀ (n : Nat) (s : FakeSensorState),
    s.ready_counter ≤ s.ready_after → s.ready_after < s.ready_counter + n →
    bootLoop FakeMotionSensor n s
      = (true, { s with power := true, ready_counter := s.ready_after + 1 }) := by
  intro n
  induction n with
  | zero => intro s h1 h2; omega
  | succ n ih =>
      intro s h1 h2
      obtain ⟨p, rc, ra, cm, md⟩ := s
      simp only at h1 h2 ⊢
      by_cases hc : rc = ra
      · subst hc
        simp only [bootLoop, fake_power_on]
        rw [pollLoop_fake_ready 10 (by omega) _ (show rc < rc + 1 by omega)]
      · simp only [bootLoop, fake_power_on]
        rw [pollLoop_fake_booting 10 _ (show rc + 1 ≤ ra by omega)]
        exact ih _ (show rc + 1 ≤ ra by omega) (show ra < rc + 1 + n by omega)

/-- C1 counterexample: with a hardware whose `power_off` raises and a
controller that was ready, `shutdown` propagates the error and leaves
`ready == true`: the assignment after `hw.power_off()` is never reached,
so `shutdown` does have an error path. -/
theorem shutdown_claim_counterexample :
    (shutdown failPowerOffHw { ready := true, device_type := "FlakyContactSensor" } ()).1
        = .error (Err.hwError "power off failed")
    ∧ (shutdown failPowerOffHw { ready := true, device_type := "FlakyContactSensor" } ()).2.1.ready
        = true := by
  decide

/-- C1 (amended): for every prior controller state, when `hw.power_off()`
returns normally, `shutdown()` returns normally with `ready == false`;
when `hw.power_off()` raises, the error propagates and `ready` keeps its
prior value. -/
theorem shutdown_spec {σ : Type} (hw : Hardware σ) (c : DeviceController) (s : σ) :
    (∀ s', hw.power_off s = (.ok (), s') →
        shutdown hw c s = (.ok (), { c with ready := false }, s'))
    ∧ (∀ e s', hw.power_off s = (.error e, s') →
        shutdown hw c s = (.error e, c, s')) := by
  constructor
  · intro s' h; simp [shutdown, h]
  · intro e s' h; simp [shutdown, h]

/-- C1 witness: `shutdown` on a ready controller over a booted fake
motion sensor powers off and clears `ready`; on the raising hardware the
error propagates with `ready` still true. -/
theorem shutdown_spec_witness :
    shutdown FakeMotionSensor { ready := true, device_type := "FakeMotionSensor" }
        { power := true, ready_counter := 1, ready_after := 0, commands := [],
          motion_detected := false }
      = (.ok (), { ready := false, device_type := "FakeMotionSensor" },
          { power := false, ready_counter := 1, ready_after := 0, commands := [],
            motion_detected := false })
    ∧ shutdown failPowerOffHw { ready := true, device_type := "FlakyContactSensor" } ()
      = (.error (Err.hwError "power off failed"),
          { ready := true, device_type := "FlakyContactSensor" }, ()) :=
  ⟨(shutdown_spec FakeMotionSensor _ _).1 _ rfl,
   (shutdown_spec failPowerOffHw _ _).2 (Err.hwError "power off failed") () rfl⟩

/-- C2 counterexample: when the hardware answers "GET_CONTACT" with
"CONTACT:OPEN:LATCHED", `check_contact` returns "OPEN" (the field between
the first and second colon), not the full substring "OPEN:LATCHED" after
the first colon. -/
theorem check_contact_after_colon_counterexample :
    (check_contact latchedContactHw
        { ready := true, device_type := "LatchedContactSensor" } ()).1
        = .ok "OPEN"
    ∧ ((Except.ok "OPEN" : Except Err String) ≠ .ok "OPEN:LATCHED") := by
  decide

/-- C2 (amended): for every contact-capable, ready controller and every
response string returned by `hw.send("GET_CONTACT")`, `check_contact`
returns element 1 of the response split on ":" — the substring strictly
between the first ":" and the following ":" or end of string — with no
validation of the state value. -/
theorem check_contact_spec {σ : Type} (hw : Hardware σ) (c : DeviceController)
    (s : σ) (response : String) (s' : σ) (v : String)
    (hc : strIn "Contact" c.device_type = true) (hr : c.ready = true)
    (hs : hw.send "GET_CONTACT" s = (.ok response, s'))
    (hv : (pySplit response ':')[1]? = some v) :
    check_contact hw c s = (.ok v, c, s') := by
  simp [check_contact, hc, hr, hs, hv]

/-- C2 witness: a booted fake contact sensor in state "CLOSED" answers
"CONTACT:CLOSED" and `check_contact` returns "CLOSED". -/
theorem check_contact_spec_witness :
    check_contact FakeContactSensor { ready := true, device_type := "FakeContactSensor" }
        { power := true, ready_counter := 1, ready_after := 0, commands := [],
          contact_state := "CLOSED" }
      = (.ok "CLOSED", { ready := true, device_type := "FakeContactSensor" },
          { power := true, ready_counter := 1, ready_after := 0,
            commands := ["GET_CONTACT"], contact_state := "CLOSED" }) :=
  check_contact_spec FakeContactSensor _ _ "CONTACT:CLOSED" _ "CLOSED"
    (by decide) rfl (by decide) (by decide)

/-- C3: on a fake motion sensor that becomes READY only after more than
`r` power-on cycles, `boot_device` with `n ≤ r` retries raises
`DeviceTimeoutError` and leaves `ready == false`. -/
theorem boot_device_timeout (r n : Nat) (h : n ≤ r) :
    (boot_device FakeMotionSensor (mkController FakeMotionSensor) n
        (FakeSensorState.init r)).1
        = .error (Err.deviceTimeout "Device failed to boot within the specified timeout.")
    ∧ (boot_device FakeMotionSensor (mkController FakeMotionSensor) n
        (FakeSensorState.init r)).2.1.ready = false := by
  have hb := bootLoop_fake_fail n (FakeSensorState.init r) (show 0 + n ≤ r by omega)
  rcases hbe : bootLoop FakeMotionSensor n (FakeSensorState.init r) with ⟨b, s2⟩
  rw [hbe] at hb
  simp only at hb
  subst hb
  constructor <;> simp [boot_device, hbe, mkController]

/-- C3 witness: the failing-boot scenario of the tests, `ready_after = 10`
and `retries = 3`. -/
theorem boot_device_timeout_witness :
    3 ≤ 10
    ∧ ((boot_device FakeMotionSensor (mkController FakeMotionSensor) 3
          (FakeSensorState.init 10)).1
        = .error (Err.deviceTimeout "Device failed to boot within the specified timeout.")
    ∧ (boot_device FakeMotionSensor (mkController FakeMotionSensor) 3
          (FakeSensorState.init 10)).2.1.ready = false) :=
  ⟨by decide, boot_device_timeout 10 3 (by decide)⟩

/-- C4: on a fake motion sensor with `ready_after = r < n = retries`,
`boot_device` succeeds, sets `ready == true`, and stops at the first
attempt whose poll observes "READY": the final power-on count is exactly
`r + 1`. -/
theorem boot_device_success (r n : Nat) (h : r < n) :
    boot_device FakeMotionSensor (mkController FakeMotionSensor) n (FakeSensorState.init r)
      = (.ok (), { ready := true, device_type := "FakeMotionSensor" },
          { power := true, ready_counter := r + 1, ready_after := r, commands := [],
            motion_detected := false }) := by
  have hb := bootLoop_fake_success n (FakeSensorState.init r)
      (show 0 ≤ r by omega) (show r < 0 + n by omega)
  simp only [FakeSensorState.init] at hb
  simp only [boot_device, mkController, FakeSensorState.init]
  rw [hb]
  rfl

/-- C4 witness: the delayed-boot scenario of the tests, `ready_after = 2`
and `retries = 3`. -/
theorem boot_device_success_witness :
    2 < 3
    ∧ boot_device FakeMotionSensor (mkController FakeMotionSensor) 3 (FakeSensorState.init 2)
      = (.ok (), { ready := true, device_type := "FakeMotionSensor" },
          { power := true, ready_counter := 3, ready_after := 2, commands := [],
            motion_detected := false }) :=
  ⟨by decide, boot_device_success 2 3 (by decide)⟩

/-- C5: `send_command` raises `DeviceNotReadyError` when the controller is
not ready; when ready it forwards exactly the given command to `hw.send`
and returns its outcome unchanged, so any hardware error propagates
unmodified and no retry happens. -/
theorem send_command_spec {σ : Type} (hw : Hardware σ) (c : DeviceController)
    (command : String) (s : σ) :
    (c.ready = false →
        send_command hw c command s
          = (.error (Err.deviceNotReady "Device is not ready."), c, s))
    ∧ (c.ready = true →
        send_command hw c command s = ((hw.send command s).1, c, (hw.send command s).2)) := by
  constructor <;> intro h <;> simp [send_command, h]

/-- C5 witness: before boot the fake rejects "PING" with
`DeviceNotReadyError`; after boot "PING" is forwarded and answered
"ACK:PING". -/
theorem send_command_spec_witness :
    send_command FakeMotionSensor (mkController FakeMotionSensor) "PING"
        (FakeSensorState.init 0)
      = (.error (Err.deviceNotReady "Device is not ready."),
          mkController FakeMotionSensor, FakeSensorState.init 0)
    ∧ send_command FakeMotionSensor { ready := true, device_type := "FakeMotionSensor" }
        "PING"
        { power := true, ready_counter := 1, ready_after := 0, commands := [],
          motion_detected := false }
      = (.ok "ACK:PING", { ready := true, device_type := "FakeMotionSensor" },
          { power := true, ready_counter := 1, ready_after := 0, commands := ["PING"],
            motion_detected := false }) := by
  constructor
  · exact (send_command_spec FakeMotionSensor _ "PING" _).1 rfl
  · rw [(send_command_spec FakeMotionSensor _ "PING" _).2 rfl]
    decide

/-- C6: the capability type check is decided before the readiness check:
whatever the value of `ready`, `check_motion` on a controller whose
device-type tag lacks "Motion" raises the type-mismatch error, and
`check_contact` on one whose tag lacks "Contact" likewise. -/
theorem capability_check_before_ready {σ : Type} (hw : Hardware σ)
    (c : DeviceController) (s : σ) :
    (strIn "Motion" c.device_type = false →
        check_motion hw c s
          = (.error (Err.typeError "This device does not support motion detection"), c, s))
    ∧ (strIn "Contact" c.device_type = false →
        check_contact hw c s
          = (.error (Err.typeError "This device does not support contact sensing"), c, s)) := by
  constructor <;> intro h <;> simp [check_motion, check_contact, h]

/-- C6 witness: a ready contact-sensor controller rejects `check_motion`
and a ready motion-sensor controller rejects `check_contact`, both with
the type-mismatch error. -/
theorem capability_check_before_ready_witness :
    check_motion FakeContactSensor { ready := true, device_type := "FakeContactSensor" }
        (FakeContactState.init 0)
      = (.error (Err.typeError "This device does not support motion detection"),
          { ready := true, device_type := "FakeContactSensor" }, FakeContactState.init 0)
    ∧ check_contact FakeMotionSensor { ready := true, device_type := "FakeMotionSensor" }
        (FakeSensorState.init 0)
      = (.error (Err.typeError "This device does not support contact sensing"),
          { ready := true, device_type := "FakeMotionSensor" }, FakeSensorState.init 0) :=
  ⟨(capability_check_before_ready FakeContactSensor _ _).1 (by decide),
   (capability_check_before_ready FakeMotionSensor _ _).2 (by decide)⟩

/-- C7: an error raised by `power_on`, or by `status` during the polling
of an attempt, is caught and consumes exactly that one attempt, execution
continuing with the remaining attempts; and the only error `boot_device`
ever surfaces to its caller is `DeviceTimeoutError`, after all retries
are exhausted. -/
theorem boot_error_isolation {σ : Type} (hw : Hardware σ) (c : DeviceController)
    (n : Nat) (s : σ) :
    (∀ e s', hw.power_on s = (.error e, s') →
        bootLoop hw (n + 1) s = bootLoop hw n s')
    ∧ (∀ s' e s'', hw.power_on s = (.ok (), s') →
        pollLoop hw 10 s' = (.error e, s'') →
        bootLoop hw (n + 1) s = bootLoop hw n s'')
    ∧ ((boot_device hw c n s).1 = .ok ()
        ∨ (boot_device hw c n s).1
            = .error (Err.deviceTimeout "Device failed to boot within the specified timeout.")) := by
  refine ⟨?_, ?_, ?_⟩
  · intro e s' h; simp [bootLoop, h]
  · intro s' e s'' h1 h2; simp [bootLoop, h1, h2]
  · rcases hbe : bootLoop hw n s with ⟨b, s2⟩
    cases b <;> simp [boot_device, hbe]

/-- C7 witness: a raising `power_on` and a raising `status` each consume
one attempt, and the exhausted boot surfaces only `DeviceTimeoutError`. -/
theorem boot_error_isolation_witness :
    bootLoop badPowerHw 2 () = bootLoop badPowerHw 1 ()
    ∧ bootLoop badStatusHw 2 () = bootLoop badStatusHw 1 ()
    ∧ ((boot_device badPowerHw (mkController badPowerHw) 1 ()).1 = .ok ()
        ∨ (boot_device badPowerHw (mkController badPowerHw) 1 ()).1
            = .error (Err.deviceTimeout "Device failed to boot within the specified timeout.")) :=
  ⟨(boot_error_isolation badPowerHw (mkController badPowerHw) 1 ()).1
      (Err.hwError "no power") () rfl,
   (boot_error_isolation badStatusHw (mkController badStatusHw) 1 ()).2.1
      () (Err.hwError "status failure") () rfl rfl,
   (boot_error_isolation badPowerHw (mkController badPowerHw) 1 ()).2.2⟩

/-- C8: on a motion-capable, ready controller, `check_motion` sends
exactly "GET_MOTION" and returns true iff the response equals
"MOTION:YES", false for every other response. -/
theorem check_motion_spec {σ : Type} (hw : Hardware σ) (c : DeviceController)
    (s : σ) (response : String) (s' : σ)
    (hm : strIn "Motion" c.device_type = true) (hr : c.ready = true)
    (hs : hw.send "GET_MOTION" s = (.ok response, s')) :
    check_motion hw c s = (.ok (response == "MOTION:YES"), c, s')
    ∧ ((check_motion hw c s).1 = .ok true ↔ response = "MOTION:YES") := by
  have h1 : check_motion hw c s = (.ok (response == "MOTION:YES"), c, s') := by
    simp [check_motion, hm, hr, hs]
  refine ⟨h1, ?_⟩
  rw [h1]
  simp [beq_iff_eq]

/-- C8 witness: a booted fake motion sensor with motion detected answers
"MOTION:YES" and `check_motion` returns true, recording the sent
command. -/
theorem check_motion_spec_witness :
    check_motion FakeMotionSensor { ready := true, device_type := "FakeMotionSensor" }
        { power := true, ready_counter := 1, ready_after := 0, commands := [],
          motion_detected := true }
      = (.ok true, { ready := true, device_type := "FakeMotionSensor" },
          { power := true, ready_counter := 1, ready_after := 0,
            commands := ["GET_MOTION"], motion_detected := true }) :=
  (check_motion_spec FakeMotionSensor _ _ "MOTION:YES" _ (by decide) rfl (by decide)).1

/-- C9: a hardware response to "GET_CONTACT" with no ":" separator, here
"OPEN", makes `check_contact` on a contact-capable ready controller fail
with the unhandled indexing error of `response.split(":")[1]` instead of
returning a value. -/
theorem check_contact_missing_separator :
    check_contact bareOpenHw { ready := true, device_type := "BareContactSensor" } ()
      = (.error Err.indexError, { ready := true, device_type := "BareContactSensor" }, ()) := by
  decide

/-- C10: `send_command`, `check_motion` and `check_contact` return the
controller unchanged (same `ready`, same `device_type`) whether they
return normally or raise; `boot_device` either leaves the controller
unchanged or only sets `ready := true`, and `shutdown` either leaves it
unchanged or only sets `ready := false`. -/
theorem methods_frame {σ : Type} (hw : Hardware σ) (c : DeviceController)
    (command : String) (n : Nat) (s : σ) :
    (send_command hw c command s).2.1 = c
    ∧ (check_motion hw c s).2.1 = c
    ∧ (check_contact hw c s).2.1 = c
    ∧ ((boot_device hw c n s).2.1 = c
        ∨ (boot_device hw c n s).2.1 = { c with ready := true })
    ∧ ((shutdown hw c s).2.1 = c
        ∨ (shutdown hw c s).2.1 = { c with ready := false }) := by
  refine ⟨?_, ?_, ?_, ?_, ?_⟩
  · simp only [send_command]
    split <;> rfl
  · simp only [check_motion]
    split
    · rfl
    · split
      · rfl
      · rcases hs : hw.send "GET_MOTION" s with ⟨r, s'⟩
        cases r <;> simp [hs]
  · simp only [check_contact]
    split
    · rfl
    · split
      · rfl
      · rcases hs : hw.send "GET_CONTACT" s with ⟨r, s'⟩
        cases r with
        | error e => simp [hs]
        | ok response =>
            rcases ho : (pySplit response ':')[1]? with _ | v <;> simp [hs, ho]
  · rcases hbe : bootLoop hw n s with ⟨b, s2⟩
    cases b
    · left; simp [boot_device, hbe]
    · right; simp [boot_device, hbe]
  · rcases hp : hw.power_off s with ⟨r, s'⟩
    cases r
    · left; simp [shutdown, hp]
    · right; simp [shutdown, hp]
